import Mathlib

/-!
Shallow embedding of the menu/dependency-resolution engine of
`fastapi_template/input_model.py`.

Python values that the engine stores into the context are either strings
(the chosen code of a single-select menu) or booleans (multi-select flags
and the `pydanticv1` compatibility flag).  `BuilderContext` is a `UserDict`:
a flat string-keyed mapping; we embed it as an association list with
first-match lookup and in-place update (Python dict assignment keeps the
position of an existing key, which first-match update mirrors).

Interactive input is modelled by oracle parameters:
* `terminalAvail` — whether the `simple_term_menu` import succeeded
  (`TerminalMenu is not None`);
* a function from the presented entry list to the value the corresponding
  UI call returns (`TerminalMenu.show()` gives an index or `None`;
  `radiolist_dialog(...).run()` gives an entry or `None`;
  the multi-select variants give lists).
-/

/-- A Python value stored in the builder context: the engine writes strings
(entry codes) and booleans (selection flags, `pydanticv1`). -/
inductive PyValue where
  | str (s : String)
  | bool (b : Bool)
  deriving DecidableEq

/-- Python truthiness of a stored value: empty string and `False` are falsy. -/
def PyValue.truthy : PyValue → Bool
  | .str s => !(s == "")
  | .bool b => b

/-- Truthiness of `dict.get(key)`: `None` (absent key) is falsy. -/
def pyTruthy : Option PyValue → Bool
  | none => false
  | some v => v.truthy

/-- First-match lookup in an association list (Python `dict.get`). -/
def lookupKey : List (String × PyValue) → String → Option PyValue
  | [], _ => none
  | (k', v) :: rest, k => if k' = k then some v else lookupKey rest k

/-- In-place update of an association list (Python `dict[k] = v`): replaces
the first binding of `k`, or appends a new one. -/
def setKey : List (String × PyValue) → String → PyValue → List (String × PyValue)
  | [], k, v => [(k, v)]
  | (k', v') :: rest, k, v =>
      if k' = k then (k, v) :: rest else (k', v') :: setKey rest k v

/-- Structure `BuilderContext`: options for project generation, a `UserDict` whose
backing map `data` is read by `__getattr__`/`dict()` and written by
`__setattr__`. -/
structure BuilderContext where
  data : List (String × PyValue)
  deriving DecidableEq

/-- Read of `context.dict().get(k)` / `getattr(context, k, None)`. -/
def BuilderContext.get (ctx : BuilderContext) (k : String) : Option PyValue :=
  lookupKey ctx.data k

/-- Write of `setattr(context, k, v)`. -/
def BuilderContext.set (ctx : BuilderContext) (k : String) (v : PyValue) :
    BuilderContext :=
  ⟨setKey ctx.data k v⟩

/-- Structure `MenuEntry`: a single selectable option.  `parser` and
`additional_info` values the engine never interprets; `additional_info`
is kept (as an optional plain value) because pydantic equality compares
it when an entry is tested against the skip sentinel. -/
structure MenuEntry where
  code : String
  cli_name : Option String := none
  user_view : String
  description : String
  is_hidden : Option (BuilderContext → Bool) := none
  additional_info : Option PyValue := none
  pydantic_v1 : Bool := false

/-- The reserved skip sentinel `SKIP_ENTRY`. -/
def SKIP_ENTRY : MenuEntry :=
  { code := "skip", user_view := "skip", description := "skip" }

/-- Pydantic `BaseModel.__eq__` compares models field by field, so the
source test `chosen_entry == SKIP_ENTRY` holds exactly when every field of
`chosen_entry` equals the corresponding field of the sentinel.  Function
fields compare by object identity in Python; the sentinel has
`is_hidden = None`, so equality requires `is_hidden` to be `None` too. -/
def isSkipEq (e : MenuEntry) : Bool :=
  e.code == "skip" && e.cli_name == none && e.user_view == "skip" &&
    e.description == "skip" && e.is_hidden.isNone &&
    e.additional_info == none && e.pydantic_v1 == false

/-- The source test `chosen_entries == [SKIP_ENTRY]` on the multi-select
path: Python list equality, elementwise pydantic equality. -/
def isSkipList (ces : List MenuEntry) : Bool :=
  match ces with
  | [e] => isSkipEq e
  | _ => false

/-- The loop `for entry in self.entries: if entry.code == ctx_value:
chosen_entry = entry` — the last entry whose code equals the seeded value
wins.  A seeded boolean never equals a string code in Python. -/
def lastMatching (entries : List MenuEntry) (v : PyValue) : Option MenuEntry :=
  match entries with
  | [] => none
  | e :: rest =>
      match lastMatching rest v with
      | some r => some r
      | none =>
          match v with
          | .str s => if e.code = s then some e else none
          | .bool _ => none

/-- Structure `SingularMenuModel`: a single-select menu.  The `after_ask_fun` hook of
the source receives `(context, self)`; since `self` is the very menu the
hook is stored on, the curried `BuilderContext → BuilderContext` form (with
the menu already applied) is equivalent for the engine.  The unused
`parser` field is omitted. -/
structure SingularMenuModel where
  title : String
  entries : List MenuEntry
  description : String
  code : String
  cli_name : Option String := none
  before_ask_fun : Option (BuilderContext → Option MenuEntry) := none
  after_ask_fun : Option (BuilderContext → BuilderContext) := none

namespace SingularMenuModel

/-- Predicate `need_ask`: true iff `getattr(context, self.code, None) is None`. -/
def need_ask (m : SingularMenuModel) (ctx : BuilderContext) : Bool :=
  (ctx.get m.code).isNone

/-- The `available_entries` list built by `ask`: entries whose `is_hidden`
is absent or evaluates false on the current context. -/
def available_entries (m : SingularMenuModel) (ctx : BuilderContext) :
    List MenuEntry :=
  m.entries.filter fun e =>
    match e.is_hidden with
    | none => true
    | some h => !h ctx

/-- Result of the `before_ask_fun` hook (`None` when no hook is registered). -/
def hookEntry (m : SingularMenuModel) (ctx : BuilderContext) :
    Option MenuEntry :=
  match m.before_ask_fun with
  | none => none
  | some f => f ctx

/-- The context-seeded resolution: `ctx_value = context.dict().get(self.code)`,
and when it is truthy, the last entry whose code equals it. -/
def seededEntry (m : SingularMenuModel) (ctx : BuilderContext) :
    Option MenuEntry :=
  match ctx.get m.code with
  | none => none
  | some v => if v.truthy then lastMatching m.entries v else none

/-- The value of `chosen_entry` after the hook and the seeded lookup: the
lookup overwrites the hook result when it finds a match, otherwise the hook
result stands. -/
def preEntry (m : SingularMenuModel) (ctx : BuilderContext) :
    Option MenuEntry :=
  match m.seededEntry ctx with
  | some e => some e
  | none => m.hookEntry ctx

/-- The interactive step of `ask`, reached when `chosen_entry` is still
`None`.  With the terminal menu available, `show()` yields an index into
`available_entries` or `None` on cancel (an out-of-range index cannot be
produced by the real widget; the model returns `none` there).  On the
fallback path, `radiolist_dialog(...).run() or SKIP_ENTRY` converts a
cancelled dialog (`None`, falsy) into the skip sentinel. -/
def interactiveEntry (m : SingularMenuModel) (terminalAvail : Bool)
    (termShow : List MenuEntry → Option Nat)
    (dialogRun : List MenuEntry → Option MenuEntry)
    (ctx : BuilderContext) : Option MenuEntry :=
  let avail := m.available_entries ctx
  if terminalAvail then
    match termShow avail with
    | none => none
    | some idx => avail.get? idx
  else
    some ((dialogRun avail).getD SKIP_ENTRY)

/-- The resolved `chosen_entry` of `ask`: hook, then seeded lookup, then
the interactive step. -/
def resolveEntry (m : SingularMenuModel) (terminalAvail : Bool)
    (termShow : List MenuEntry → Option Nat)
    (dialogRun : List MenuEntry → Option MenuEntry)
    (ctx : BuilderContext) : Option MenuEntry :=
  match m.preEntry ctx with
  | some e => some e
  | none => m.interactiveEntry terminalAvail termShow dialogRun ctx

/-- Method `SingularMenuModel.ask`.  After resolution: a `None` entry (cancel)
returns `None`; an entry equal to the skip sentinel hits the bare `return`
of line 301 and also returns `None`; otherwise the chosen code is written
under `self.code`, and `pydanticv1` is set when the entry carries the flag. -/
def ask (m : SingularMenuModel) (terminalAvail : Bool)
    (termShow : List MenuEntry → Option Nat)
    (dialogRun : List MenuEntry → Option MenuEntry)
    (ctx : BuilderContext) : Option BuilderContext :=
  match m.resolveEntry terminalAvail termShow dialogRun ctx with
  | none => none
  | some ce =>
      if isSkipEq ce then none
      else
        let ctx1 := ctx.set m.code (.str ce.code)
        some (if ce.pydantic_v1 then ctx1.set "pydanticv1" (.bool true) else ctx1)

/-- Method `SingularMenuModel.after_ask`: delegates to `after_ask_fun` when
registered, else returns the context unchanged (the base behaviour). -/
def after_ask (m : SingularMenuModel) (ctx : BuilderContext) :
    BuilderContext :=
  match m.after_ask_fun with
  | some f => f ctx
  | none => ctx

end SingularMenuModel

/-- Structure `MultiselectMenuModel`: a multi-select menu. -/
structure MultiselectMenuModel where
  title : String
  entries : List MenuEntry
  description : String := ""
  before_ask : Option (BuilderContext → Option (List MenuEntry)) := none

namespace MultiselectMenuModel

/-- Predicate `need_ask`: true iff some entry has `getattr(context, entry.code, None)
is None`. -/
def need_ask (m : MultiselectMenuModel) (ctx : BuilderContext) : Bool :=
  m.entries.any fun e => (ctx.get e.code).isNone

/-- The `unknown_entries` list of `ask`: entries whose code is not already
truthy in the context. -/
def unknown_entries (m : MultiselectMenuModel) (ctx : BuilderContext) :
    List MenuEntry :=
  m.entries.filter fun e => !pyTruthy (ctx.get e.code)

/-- The `visible_entries` list of `ask`: unknown entries whose `is_hidden`
is absent or evaluates false. -/
def visible_entries (m : MultiselectMenuModel) (ctx : BuilderContext) :
    List MenuEntry :=
  (m.unknown_entries ctx).filter fun e =>
    match e.is_hidden with
    | none => true
    | some h => !h ctx

/-- The resolved `chosen_entries` of the multi-select `ask`: the hook result
when non-null, else the interactive step.  With the terminal menu, `show()`
yields a list of indices into `visible_entries` or `None` on cancel (indices
from the real widget are always in range; the model drops an out-of-range
one).  On the fallback path, `checkboxlist_dialog(...).run() or [SKIP_ENTRY]`
turns both a cancelled dialog (`None`) and an empty selection (falsy `[]`)
into `[SKIP_ENTRY]`. -/
def resolveEntries (m : MultiselectMenuModel) (terminalAvail : Bool)
    (termShow : List MenuEntry → Option (List Nat))
    (dialogRun : List MenuEntry → Option (List MenuEntry))
    (ctx : BuilderContext) : Option (List MenuEntry) :=
  match (match m.before_ask with
         | none => none
         | some f => f ctx) with
  | some ces => some ces
  | none =>
      let visible := m.visible_entries ctx
      if terminalAvail then
        match termShow visible with
        | none => none
        | some idxs => some (idxs.filterMap fun i => visible.get? i)
      else
        match dialogRun visible with
        | none => some [SKIP_ENTRY]
        | some l => some (if l.isEmpty then [SKIP_ENTRY] else l)

/-- The write-back of the multi-select `ask`: first loop sets
`context[entry.code] = True` for every chosen entry, second loop sets
`context.pydanticv1 = True` for every chosen entry carrying the flag. -/
def record (ces : List MenuEntry) (ctx : BuilderContext) : BuilderContext :=
  let ctx1 := ces.foldl (fun c e => c.set e.code (.bool true)) ctx
  ces.foldl
    (fun c e => if e.pydantic_v1 then c.set "pydanticv1" (.bool true) else c)
    ctx1

/-- Method `MultiselectMenuModel.ask`: cancellation propagates `None`; a result
equal to `[SKIP_ENTRY]` returns the context unchanged; otherwise the chosen
entries are recorded. -/
def ask (m : MultiselectMenuModel) (terminalAvail : Bool)
    (termShow : List MenuEntry → Option (List Nat))
    (dialogRun : List MenuEntry → Option (List MenuEntry))
    (ctx : BuilderContext) : Option BuilderContext :=
  match m.resolveEntries terminalAvail termShow dialogRun ctx with
  | none => none
  | some ces =>
      if isSkipList ces then some ctx
      else some (record ces ctx)

/-- Method `MultiselectMenuModel.after_ask` is the inherited base `after_ask`:
returns the context unchanged. -/
def after_ask (_m : MultiselectMenuModel) (ctx : BuilderContext) :
    BuilderContext :=
  ctx

end MultiselectMenuModel

/-!
Model of the `generated_name` accessor of `MenuEntry`.

The class body of `MenuEntry` defines the property `generated_name` three
times (source lines 34 to 82).  In Python, each definition rebinds the class
attribute, so the last one wins: a property whose getter is declared as
`generated_name(self, param1, param2)`.  All three bodies are identical.
Property access `entry.generated_name` calls the installed getter with the
single positional argument `self`; the installed getter requires three, so
the access raises `TypeError` before the body runs.
-/

/-- Outcome of evaluating a Python expression that may raise: either a value
or a raised `TypeError`. -/
inductive PyResult (α : Type) where
  | ok (a : α)
  | typeError
  deriving DecidableEq

/-- The body shared by all three source definitions of `generated_name`:
`if self.cli_name: return self.cli_name` (Python truthiness, so an empty
string falls through) `; return self.code`. -/
def MenuEntry.generated_name_body (e : MenuEntry) : String :=
  match e.cli_name with
  | some n => if n = "" then e.code else n
  | none => e.code

/-- Number of positional parameters of the getter installed by the last
definition of `generated_name` in the class body: `self`, `param1`,
`param2`. -/
def generated_name_getter_params : Nat := 3

/-- Attribute access `entry.generated_name`: Python property access calls
the getter with exactly one positional argument (`self`); when the
installed getter requires a different number, the call raises `TypeError`
and no value is produced. -/
def MenuEntry.generated_name (e : MenuEntry) : PyResult String :=
  if generated_name_getter_params = 1 then .ok e.generated_name_body
  else .typeError

/-!
Engine operations, for stating run-wide invariants.  The wizard driver
applies `ask` and `after_ask` of the declared menus in order, aborting the
run when an `ask` returns `None`.  A `singAfter` step runs
`SingularMenuModel.after_ask`, which delegates wholesale to the registered
`after_ask_fun` hook when there is one.
-/

/-- One engine operation of a wizard run: an `ask` or an `after_ask` of a
single- or multi-select menu, with the interactive oracles of the `ask`
steps attached. -/
inductive EngineOp where
  | singAsk (m : SingularMenuModel) (terminalAvail : Bool)
      (termShow : List MenuEntry → Option Nat)
      (dialogRun : List MenuEntry → Option MenuEntry)
  | multiAsk (m : MultiselectMenuModel) (terminalAvail : Bool)
      (termShow : List MenuEntry → Option (List Nat))
      (dialogRun : List MenuEntry → Option (List MenuEntry))
  | singAfter (m : SingularMenuModel)
  | multiAfter (m : MultiselectMenuModel)

/-- Effect of one engine operation on the context (`none` aborts the run). -/
def EngineOp.run : EngineOp → BuilderContext → Option BuilderContext
  | .singAsk m ta ts dr, ctx => m.ask ta ts dr ctx
  | .multiAsk m ta ts dr, ctx => m.ask ta ts dr ctx
  | .singAfter m, ctx => some (m.after_ask ctx)
  | .multiAfter m, ctx => some (m.after_ask ctx)

/-- Effect of a sequence of engine operations, aborting at the first `None`
as the driver does. -/
def runOps : List EngineOp → BuilderContext → Option BuilderContext
  | [], ctx => some ctx
  | op :: rest, ctx =>
      match op.run ctx with
      | none => none
      | some ctx1 => runOps rest ctx1

/-!  Concrete fixtures used by counterexamples and witnesses.  -/

/-- A plain visible entry with code `a`. -/
def entryA : MenuEntry :=
  { code := "a", user_view := "A", description := "entry a" }

/-- A plain visible entry with code `b`. -/
def entryB : MenuEntry :=
  { code := "b", user_view := "B", description := "entry b" }

/-- An entry carrying the `pydantic_v1` legacy flag. -/
def entryP : MenuEntry :=
  { code := "p", user_view := "P", description := "legacy entry",
    pydantic_v1 := true }

/-- An entry whose `is_hidden` predicate always evaluates true. -/
def entryHidden : MenuEntry :=
  { code := "h", user_view := "H", description := "hidden entry",
    is_hidden := some fun _ => true }

/-- A fresh `MenuEntry` carrying exactly the field values of the skip
sentinel.  In Python this is a separately constructed object, so it is not
identical (`is`) to `SKIP_ENTRY`, yet pydantic `==` finds it equal. -/
def skipClone : MenuEntry :=
  { code := "skip", user_view := "skip", description := "skip" }

/-- A single-select menu over `entryA` with context key `db`. -/
def dbMenu : SingularMenuModel :=
  { title := "database", entries := [entryA], description := "pick a db",
    code := "db" }

/-- A single-select menu whose `before_ask_fun` hook resolves to the skip
sentinel itself. -/
def skipDemoMenu : SingularMenuModel :=
  { title := "demo", entries := [entryA], description := "demo",
    code := "opt", before_ask_fun := some fun _ => some SKIP_ENTRY }

/-- A single-select menu whose `before_ask_fun` hook resolves to the clone
of the skip sentinel. -/
def cloneMenuS : SingularMenuModel :=
  { title := "clone", entries := [entryA], description := "clone",
    code := "optc", before_ask_fun := some fun _ => some skipClone }

/-- A multi-select menu whose `before_ask` hook resolves to a list holding
only the clone of the skip sentinel. -/
def cloneMenuM : MultiselectMenuModel :=
  { title := "clonem", entries := [skipClone],
    before_ask := some fun _ => some [skipClone] }

/-- A hook-free multi-select menu over `entryA`. -/
def multiMenuA : MultiselectMenuModel :=
  { title := "features", entries := [entryA], before_ask := none }

/-- A multi-select menu over `entryA` and `entryB` whose hook chooses only
`entryA`. -/
def multiMenuAB : MultiselectMenuModel :=
  { title := "features2", entries := [entryA, entryB],
    before_ask := some fun _ => some [entryA] }

/-- A multi-select menu over `entryA` and `entryB` whose hook chooses both. -/
def multiMenuFull : MultiselectMenuModel :=
  { title := "features3", entries := [entryA, entryB],
    before_ask := some fun _ => some [entryA, entryB] }

/-- A multi-select menu whose hook chooses the legacy-flagged `entryP`. -/
def multiMenuP : MultiselectMenuModel :=
  { title := "legacy", entries := [entryP],
    before_ask := some fun _ => some [entryP] }

/-- A single-select menu with a `before_ask_fun` hook resolving `entryA`,
over entries `entryA` and `entryB`. -/
def hookMenu : SingularMenuModel :=
  { title := "hooked", entries := [entryA, entryB], description := "hooked",
    code := "opt", before_ask_fun := some fun _ => some entryA }

/-- A single-select menu whose context key is the reserved compatibility
key `pydanticv1`, with a hook resolving `entryA`. -/
def pydMenu : SingularMenuModel :=
  { title := "pyd", entries := [entryA], description := "pyd",
    code := "pydanticv1", before_ask_fun := some fun _ => some entryA }

/-- A single-select menu over a visible entry and an always-hidden entry. -/
def hidMenu : SingularMenuModel :=
  { title := "hid", entries := [entryA, entryHidden], description := "hid",
    code := "opt2" }

/-!  Basic lemmas about the context store.  -/

theorem lookupKey_setKey (l : List (String × PyValue)) (k k' : String)
    (v : PyValue) :
    lookupKey (setKey l k v) k' = if k' = k then some v else lookupKey l k' := by
  induction l with
  | nil =>
      simp only [setKey, lookupKey]
      by_cases h : k = k'
      · subst h; simp
      · rw [if_neg h, if_neg fun h2 => h h2.symm]
  | cons p rest ih =>
      obtain ⟨k2, v2⟩ := p
      by_cases h2 : k2 = k
      · subst h2
        simp only [setKey, if_pos rfl, lookupKey]
        by_cases h : k2 = k'
        · subst h; simp
        · rw [if_neg h, if_neg fun h3 => h h3.symm, if_neg h]
      · simp only [setKey, if_neg h2, lookupKey, ih]
        by_cases h : k2 = k'
        · subst h
          simp [h2]
        · simp [h]

theorem BuilderContext.get_set (ctx : BuilderContext) (k k' : String)
    (v : PyValue) :
    (ctx.set k v).get k' = if k' = k then some v else ctx.get k' :=
  lookupKey_setKey ctx.data k k' v


theorem foldl_setTrue_get (ces : List MenuEntry) (ctx : BuilderContext)
    (k : String) :
    (ces.foldl (fun c e => c.set e.code (PyValue.bool true)) ctx).get k
      = if ces.any (fun e => e.code == k) = true then some (PyValue.bool true)
        else ctx.get k := by
  induction ces generalizing ctx with
  | nil => simp
  | cons e rest ih =>
      simp only [List.foldl_cons, List.any_cons, ih, BuilderContext.get_set]
      by_cases hr : rest.any (fun e2 => e2.code == k) = true
      · simp [hr]
      · rw [Bool.not_eq_true] at hr
        by_cases h : e.code = k
        · subst h
          simp [hr]
        · have hbeq : (e.code == k) = false := beq_eq_false_iff_ne.mpr h
          have hke : ¬(k = e.code) := fun h2 => h h2.symm
          simp [hr, hbeq, hke]

theorem foldl_pyd_get (ces : List MenuEntry) (ctx : BuilderContext)
    (k : String) :
    (ces.foldl
        (fun c e =>
          if e.pydantic_v1 then c.set "pydanticv1" (PyValue.bool true) else c)
        ctx).get k
      = if k = "pydanticv1" ∧ ces.any (fun e => e.pydantic_v1) = true
        then some (PyValue.bool true) else ctx.get k := by
  induction ces generalizing ctx with
  | nil => simp
  | cons e rest ih =>
      simp only [List.foldl_cons, List.any_cons, ih]
      by_cases hp : e.pydantic_v1 = true
      · simp only [hp, if_true, BuilderContext.get_set, Bool.true_or]
        by_cases hk : k = "pydanticv1"
        · subst hk
          by_cases hr : rest.any (fun e2 => e2.pydantic_v1) = true <;>
            simp [hr]
        · simp [hk]
      · rw [Bool.not_eq_true] at hp
        simp [hp]

theorem MultiselectMenuModel.record_get (ces : List MenuEntry)
    (ctx : BuilderContext) (k : String) :
    (MultiselectMenuModel.record ces ctx).get k
      = if k = "pydanticv1" ∧ ces.any (fun e => e.pydantic_v1) = true
        then some (PyValue.bool true)
        else if ces.any (fun e => e.code == k) = true
        then some (PyValue.bool true)
        else ctx.get k := by
  simp only [MultiselectMenuModel.record]
  rw [foldl_pyd_get, foldl_setTrue_get]

theorem lastMatching_mem (entries : List MenuEntry) (c : String)
    (r : MenuEntry) (h : lastMatching entries (.str c) = some r) :
    r ∈ entries ∧ r.code = c := by
  induction entries with
  | nil => simp [lastMatching] at h
  | cons e rest ih =>
      rw [lastMatching] at h
      cases hrest : lastMatching rest (.str c) with
      | some r2 =>
          rw [hrest] at h
          cases h
          have hr2 := ih hrest
          exact ⟨List.mem_cons_of_mem _ hr2.1, hr2.2⟩
      | none =>
          rw [hrest] at h
          by_cases hc : e.code = c
          · rw [if_pos hc] at h
            cases h
            exact ⟨List.mem_cons_self _ _, hc⟩
          · rw [if_neg hc] at h
            cases h

theorem lastMatching_of_unique (entries : List MenuEntry) (e : MenuEntry)
    (c : String) (he : e ∈ entries) (hc : e.code = c)
    (hu : ∀ e2 ∈ entries, e2.code = c → e2 = e) :
    lastMatching entries (.str c) = some e := by
  induction entries with
  | nil => cases he
  | cons a rest ih =>
      by_cases hr : e ∈ rest
      · have hlast : lastMatching rest (.str c) = some e :=
          ih hr fun e2 h2 hc2 => hu e2 (List.mem_cons_of_mem _ h2) hc2
        rw [lastMatching, hlast]
      · have hea : e = a := by
          rcases List.mem_cons.mp he with h | h
          · exact h
          · exact absurd h hr
        subst hea
        have hnone : lastMatching rest (.str c) = none := by
          cases hlm : lastMatching rest (.str c) with
          | none => rfl
          | some r =>
              have hm := lastMatching_mem rest c r hlm
              have hre : r = e := hu r (List.mem_cons_of_mem _ hm.1) hm.2
              subst hre
              exact absurd hm.1 hr
        rw [lastMatching, hnone, if_pos hc]

/-- C1, counterexample.  The menu `dbMenu` carries the single entry `entryA`
(code `a`); the context is pre-seeded with `db = "bogus"`, which matches no
entry.  The claim says this must surface as a configuration error reported
to the caller; instead `ask` silently ignores the seeded value, falls
through to the interactive path, and returns a successful context in which
the interactively picked entry overwrote the bad value.  No error value
exists on this path in the source (`ask` only ever returns a context or
`None`). -/
theorem C1_unmatched_seed_cx :
    dbMenu.ask true (fun _ => some 0) (fun _ => none)
        ⟨[("db", PyValue.str "bogus")]⟩
      = some ⟨[("db", PyValue.str "a")]⟩ := by
  rfl

/-- C2, evaluation at the failing input.  A single-select resolution that
produces the skip sentinel (here via the `before_ask_fun` hook) hits the
bare `return` of source line 301, so `ask` returns `None` — the abort
signal — instead of the unchanged context that the claim (and the sibling
multi-select branch at line 434) prescribe. -/
theorem C2_skip_returns_none :
    skipDemoMenu.ask true (fun _ => none) (fun _ => none) ⟨[]⟩ = none := by
  rfl

/-- C3, counterexample.  Cancelling the fallback dialog of a multi-select
menu (the `checkboxlist_dialog(...).run()` call returns `None`) does not
propagate a null result: `run() or [SKIP_ENTRY]` converts the cancellation
into the skip sentinel, and `ask` returns the context unchanged — a
recorded non-null outcome. -/
theorem C3_dialog_cancel_cx :
    multiMenuA.ask false (fun _ => none) (fun _ => none) ⟨[]⟩
      = some ⟨[]⟩ := by
  rfl

/-- C4, counterexample.  The multi-select menu `multiMenuAB` has entries
`a` and `b`; its hook chooses only `entryA`, so `ask` completes
successfully (non-null, not a skip) setting only `a := true`, `after_ask`
returns the context unchanged, and `need_ask` is still true because entry
`b` has no recorded outcome. -/
theorem C4_need_ask_still_true_cx :
    multiMenuAB.ask true (fun _ => none) (fun _ => none) ⟨[]⟩
        = some ⟨[("a", PyValue.bool true)]⟩ ∧
    multiMenuAB.need_ask
        (multiMenuAB.after_ask ⟨[("a", PyValue.bool true)]⟩) = true := by
  exact ⟨rfl, rfl⟩

/-- C5, counterexample.  The `before_ask_fun` hook of `hookMenu` returns
the non-null entry `entryA` (code `a`), but the context already carries
`opt = "b"`, matching `entryB`; the seeded lookup of source lines 261--265
runs after the hook and overwrites its result, so the chosen entry is
`entryB`, not the hook result: the final context still maps `opt` to `b`. -/
theorem C5_hook_overridden_cx :
    hookMenu.hookEntry ⟨[("opt", PyValue.str "b")]⟩ = some entryA ∧
    hookMenu.ask true (fun _ => none) (fun _ => none)
        ⟨[("opt", PyValue.str "b")]⟩
      = some ⟨[("opt", PyValue.str "b")]⟩ ∧
    PyValue.str "b" ≠ PyValue.str entryA.code := by
  exact ⟨rfl, rfl, by decide⟩

/-- C6, evaluation at the failing input.  Reading `generated_name` on any
entry raises `TypeError`: the last of the three definitions in the class
body wins, and its getter demands two extra positional arguments that
property access never supplies.  The shared body would have returned the
code `a` for `entryA`. -/
theorem C6_generated_name_raises :
    MenuEntry.generated_name entryA = PyResult.typeError ∧
    MenuEntry.generated_name_body entryA = entryA.code := by
  exact ⟨rfl, rfl⟩

/-- C7, counterexample.  An engine `ask` can clear the compatibility flag:
the single-select menu `pydMenu` uses the reserved key `pydanticv1` as its
own context key, so with the flag already true, resolving its entry `a`
executes `setattr(context, self.code, chosen_entry.code)` and overwrites
the flag with the string `a`, which is not `True`. -/
theorem C7_flag_cleared_cx :
    runOps [EngineOp.singAsk pydMenu true (fun _ => none) (fun _ => none)]
        ⟨[("pydanticv1", PyValue.bool true)]⟩
      = some ⟨[("pydanticv1", PyValue.str "a")]⟩ ∧
    (⟨[("pydanticv1", PyValue.str "a")]⟩ : BuilderContext).get "pydanticv1"
      ≠ some (PyValue.bool true) := by
  exact ⟨rfl, by decide⟩

/-- C8, counterexample.  The entry `skipClone` is an ordinary entry of the
menu `cloneMenuM` constructed independently of the process-wide sentinel —
in Python a distinct object, merely carrying the same field values.  The
source test `chosen_entries == [SKIP_ENTRY]` uses pydantic field-value
equality, so the clone is treated as a skip: `ask` returns the context
unchanged and records nothing (the non-skip branch would have set the key
`skip` to `True`). -/
theorem C8_clone_treated_as_skip_cx :
    cloneMenuM.ask true (fun _ => none) (fun _ => none) ⟨[]⟩ = some ⟨[]⟩ ∧
    (⟨[]⟩ : BuilderContext).get "skip" = none := by
  exact ⟨rfl, rfl⟩

theorem isSkipEq_SKIP : isSkipEq SKIP_ENTRY = true := rfl

/-- C1, amended.  When the Context-seeded value for the menu key is truthy
but matches no entry code, single-select `ask` silently ignores it and
falls through to the interactive resolution path: with the terminal menu
available and the user picking a (non-skip) visible entry, `ask` completes
successfully, overwriting the bad seeded value with the picked entry code —
no configuration error is reported on any path. -/
theorem C1_unmatched_seed_falls_through
    (m : SingularMenuModel) (ctx : BuilderContext) (v : PyValue)
    (ts : List MenuEntry → Option Nat)
    (dr : List MenuEntry → Option MenuEntry)
    (i : Nat) (e : MenuEntry)
    (hseed : ctx.get m.code = some v) (htr : v.truthy = true)
    (hnomatch : lastMatching m.entries v = none)
    (hhook : m.hookEntry ctx = none)
    (hts : ts (m.available_entries ctx) = some i)
    (hget : (m.available_entries ctx).get? i = some e)
    (hskip : isSkipEq e = false) :
    m.ask true ts dr ctx
      = some (if e.pydantic_v1
              then (ctx.set m.code (PyValue.str e.code)).set "pydanticv1"
                     (PyValue.bool true)
              else ctx.set m.code (PyValue.str e.code)) := by
  simp only [SingularMenuModel.ask, SingularMenuModel.resolveEntry,
    SingularMenuModel.preEntry, SingularMenuModel.seededEntry,
    SingularMenuModel.interactiveEntry, hseed, htr, hnomatch, hhook,
    if_true, hts, hget, hskip, Bool.false_eq_true, if_false]

/-- C1, witness for the amended theorem at a concrete input. -/
theorem C1_unmatched_seed_falls_through_witness :
    (⟨[("db", PyValue.str "bogus")]⟩ : BuilderContext).get "db"
        = some (PyValue.str "bogus") ∧
    lastMatching dbMenu.entries (PyValue.str "bogus") = none ∧
    dbMenu.ask true (fun _ => some 0) (fun _ => none)
        ⟨[("db", PyValue.str "bogus")]⟩
      = some (if entryA.pydantic_v1
              then ((⟨[("db", PyValue.str "bogus")]⟩ : BuilderContext).set "db"
                      (PyValue.str entryA.code)).set "pydanticv1"
                      (PyValue.bool true)
              else (⟨[("db", PyValue.str "bogus")]⟩ : BuilderContext).set "db"
                      (PyValue.str entryA.code)) :=
  ⟨rfl, rfl,
    C1_unmatched_seed_falls_through dbMenu ⟨[("db", PyValue.str "bogus")]⟩
      (PyValue.str "bogus") (fun _ => some 0) (fun _ => none) 0 entryA
      rfl rfl rfl rfl rfl rfl rfl⟩

/-- C3, amended.  Cancellation propagates a null result only on the
primary terminal-menu path (both variants).  On the fallback dialog path a
cancellation is converted into the skip sentinel: the single-select menu
then returns `None` only because its skip branch itself returns `None`,
and the multi-select menu returns the context unchanged — a non-null,
recorded outcome. -/
theorem C3_cancellation_paths
    (sm : SingularMenuModel) (mm : MultiselectMenuModel)
    (ctx : BuilderContext)
    (dr1 : List MenuEntry → Option MenuEntry)
    (dr2 : List MenuEntry → Option (List MenuEntry))
    (ts1 : List MenuEntry → Option Nat)
    (ts2 : List MenuEntry → Option (List Nat))
    (hhook : sm.hookEntry ctx = none)
    (hseed : ctx.get sm.code = none)
    (hmhook : mm.before_ask = none) :
    sm.ask true (fun _ => none) dr1 ctx = none ∧
    mm.ask true (fun _ => none) dr2 ctx = none ∧
    sm.ask false ts1 (fun _ => none) ctx = none ∧
    mm.ask false ts2 (fun _ => none) ctx = some ctx := by
  refine ⟨?_, ?_, ?_, ?_⟩
  · simp only [SingularMenuModel.ask, SingularMenuModel.resolveEntry,
      SingularMenuModel.preEntry, SingularMenuModel.seededEntry,
      SingularMenuModel.interactiveEntry, hseed, hhook, if_true]
  · simp only [MultiselectMenuModel.ask, MultiselectMenuModel.resolveEntries,
      hmhook, if_true]
  · simp only [SingularMenuModel.ask, SingularMenuModel.resolveEntry,
      SingularMenuModel.preEntry, SingularMenuModel.seededEntry,
      SingularMenuModel.interactiveEntry, hseed, hhook, Bool.false_eq_true,
      if_false, Option.getD_none, isSkipEq_SKIP, if_true]
  · simp only [MultiselectMenuModel.ask, MultiselectMenuModel.resolveEntries,
      hmhook, Bool.false_eq_true, if_false, isSkipList, isSkipEq_SKIP,
      if_true]

/-- C3, witness for the amended theorem at a concrete input. -/
theorem C3_cancellation_paths_witness :
    dbMenu.hookEntry ⟨[]⟩ = none ∧
    dbMenu.ask true (fun _ => none) (fun _ => none) ⟨[]⟩ = none ∧
    multiMenuA.ask true (fun _ => none) (fun _ => none) ⟨[]⟩ = none ∧
    dbMenu.ask false (fun _ => none) (fun _ => none) ⟨[]⟩ = none ∧
    multiMenuA.ask false (fun _ => none) (fun _ => none) ⟨[]⟩
      = some ⟨[]⟩ := by
  have h := C3_cancellation_paths dbMenu multiMenuA ⟨[]⟩
    (fun _ => none) (fun _ => none) (fun _ => none) (fun _ => none)
    rfl rfl rfl
  exact ⟨rfl, h.1, h.2.1, h.2.2.1, h.2.2.2⟩

/-- C5, amended.  A non-null `before_ask_fun` result becomes the chosen
entry without prompting only when the seeded lookup produces nothing (the
Context value for the menu key is absent, falsy, or matches no entry);
when the lookup does produce an entry, it overwrites the hook result
(source lines 261--265 run after the hook). -/
theorem C5_hook_chosen_unless_seeded
    (m : SingularMenuModel) (ta : Bool)
    (ts : List MenuEntry → Option Nat)
    (dr : List MenuEntry → Option MenuEntry)
    (ctx : BuilderContext) (e : MenuEntry)
    (hhook : m.hookEntry ctx = some e)
    (hseed : m.seededEntry ctx = none) :
    m.resolveEntry ta ts dr ctx = some e ∧
    m.ask ta ts dr ctx
      = if isSkipEq e then none
        else some (if e.pydantic_v1
                   then (ctx.set m.code (PyValue.str e.code)).set "pydanticv1"
                          (PyValue.bool true)
                   else ctx.set m.code (PyValue.str e.code)) := by
  have h1 : m.resolveEntry ta ts dr ctx = some e := by
    simp only [SingularMenuModel.resolveEntry, SingularMenuModel.preEntry,
      hseed, hhook]
  exact ⟨h1, by simp only [SingularMenuModel.ask, h1]⟩

/-- C5, witness for the amended theorem at a concrete input. -/
theorem C5_hook_chosen_unless_seeded_witness :
    hookMenu.hookEntry ⟨[]⟩ = some entryA ∧
    hookMenu.seededEntry ⟨[]⟩ = none ∧
    hookMenu.resolveEntry true (fun _ => none) (fun _ => none) ⟨[]⟩
      = some entryA ∧
    hookMenu.ask true (fun _ => none) (fun _ => none) ⟨[]⟩
      = if isSkipEq entryA then none
        else some (if entryA.pydantic_v1
                   then ((⟨[]⟩ : BuilderContext).set "opt"
                          (PyValue.str entryA.code)).set "pydanticv1"
                          (PyValue.bool true)
                   else (⟨[]⟩ : BuilderContext).set "opt"
                          (PyValue.str entryA.code)) := by
  have h := C5_hook_chosen_unless_seeded hookMenu true (fun _ => none)
    (fun _ => none) ⟨[]⟩ entryA rfl rfl
  exact ⟨rfl, rfl, h.1, h.2⟩

/-- C8, amended.  The skip sentinel is recognised by pydantic field-value
equality, not identity: given any resolved entry, the single-select `ask`
takes the skip outcome exactly when the entry field values equal those of
the sentinel (`isSkipEq`), so an ordinary entry that merely shares the
sentinel field values is treated as a skip. -/
theorem C8_skip_by_value
    (m : SingularMenuModel) (ta : Bool)
    (ts : List MenuEntry → Option Nat)
    (dr : List MenuEntry → Option MenuEntry)
    (ctx : BuilderContext) (e : MenuEntry)
    (hres : m.resolveEntry ta ts dr ctx = some e) :
    m.ask ta ts dr ctx = none ↔ isSkipEq e = true := by
  simp only [SingularMenuModel.ask, hres]
  by_cases h : isSkipEq e = true
  · simp [h]
  · simp [h]

/-- C8, witness for the amended theorem at a concrete input. -/
theorem C8_skip_by_value_witness :
    cloneMenuS.resolveEntry true (fun _ => none) (fun _ => none) ⟨[]⟩
      = some skipClone ∧
    (cloneMenuS.ask true (fun _ => none) (fun _ => none) ⟨[]⟩ = none
      ↔ isSkipEq skipClone = true) :=
  ⟨rfl, C8_skip_by_value cloneMenuS true (fun _ => none) (fun _ => none)
    ⟨[]⟩ skipClone rfl⟩

/-- C4, amended.  After a successful non-skip multi-select `ask`, `need_ask`
on the resulting context (`after_ask` leaves it unchanged) is false exactly
when every entry ends up with a recorded value — that is, when every entry
was either among the chosen entries or already present in the context.
Entries neither chosen nor previously present stay absent and keep
`need_ask` true. -/
theorem C4_need_ask_false_after_cover
    (m : MultiselectMenuModel) (ta : Bool)
    (ts : List MenuEntry → Option (List Nat))
    (dr : List MenuEntry → Option (List MenuEntry))
    (ctx : BuilderContext) (ces : List MenuEntry)
    (hres : m.resolveEntries ta ts dr ctx = some ces)
    (hns : isSkipList ces = false)
    (hcov : ∀ e ∈ m.entries,
      ces.any (fun c => c.code == e.code) = true ∨
        (ctx.get e.code).isSome = true) :
    m.ask ta ts dr ctx = some (MultiselectMenuModel.record ces ctx) ∧
    m.need_ask
        (m.after_ask (MultiselectMenuModel.record ces ctx)) = false := by
  constructor
  · simp only [MultiselectMenuModel.ask, hres, hns, Bool.false_eq_true,
      if_false]
  · simp only [MultiselectMenuModel.after_ask, MultiselectMenuModel.need_ask,
      List.any_eq_false]
    intro e he
    rw [Bool.not_eq_true, Option.isNone_eq_false_iff,
      MultiselectMenuModel.record_get]
    by_cases h1 : e.code = "pydanticv1" ∧
        ces.any (fun c => c.pydantic_v1) = true
    · rw [if_pos h1]; rfl
    · rw [if_neg h1]
      rcases hcov e he with h2 | h2
      · rw [if_pos h2]; rfl
      · by_cases h3 : ces.any (fun c => c.code == e.code) = true
        · rw [if_pos h3]; rfl
        · rw [if_neg h3]; exact h2

/-- C4, witness for the amended theorem at a concrete input. -/
theorem C4_need_ask_false_after_cover_witness :
    multiMenuFull.resolveEntries true (fun _ => none) (fun _ => none) ⟨[]⟩
      = some [entryA, entryB] ∧
    multiMenuFull.ask true (fun _ => none) (fun _ => none) ⟨[]⟩
      = some (MultiselectMenuModel.record [entryA, entryB] ⟨[]⟩) ∧
    multiMenuFull.need_ask
        (multiMenuFull.after_ask
          (MultiselectMenuModel.record [entryA, entryB] ⟨[]⟩)) = false := by
  have h := C4_need_ask_false_after_cover multiMenuFull true (fun _ => none)
    (fun _ => none) ⟨[]⟩ [entryA, entryB] rfl rfl
    (by
      intro e he
      simp only [multiMenuFull, List.mem_cons, List.mem_singleton,
        List.not_mem_nil, or_false] at he
      rcases he with rfl | rfl
      · left; decide
      · left; decide)
  exact ⟨rfl, h.1, h.2⟩

theorem sing_ask_preserves_pydanticv1
    (m : SingularMenuModel) (ta : Bool)
    (ts : List MenuEntry → Option Nat)
    (dr : List MenuEntry → Option MenuEntry)
    (ctx ctx1 : BuilderContext)
    (hcode : m.code ≠ "pydanticv1")
    (hctx : ctx.get "pydanticv1" = some (PyValue.bool true))
    (hask : m.ask ta ts dr ctx = some ctx1) :
    ctx1.get "pydanticv1" = some (PyValue.bool true) := by
  simp only [SingularMenuModel.ask] at hask
  cases hres : m.resolveEntry ta ts dr ctx with
  | none => simp only [hres] at hask; exact Option.noConfusion hask
  | some ce =>
      simp only [hres] at hask
      by_cases hsk : isSkipEq ce = true
      · rw [if_pos hsk] at hask; cases hask
      · rw [if_neg hsk] at hask
        cases hask
        by_cases hp : ce.pydantic_v1 = true
        · simp only [hp, if_true, BuilderContext.get_set, if_pos rfl]
        · rw [Bool.not_eq_true] at hp
          simp only [hp, Bool.false_eq_true, if_false,
            BuilderContext.get_set]
          rw [if_neg fun h => hcode h.symm]
          exact hctx

theorem multi_ask_preserves_pydanticv1
    (m : MultiselectMenuModel) (ta : Bool)
    (ts : List MenuEntry → Option (List Nat))
    (dr : List MenuEntry → Option (List MenuEntry))
    (ctx ctx1 : BuilderContext)
    (hctx : ctx.get "pydanticv1" = some (PyValue.bool true))
    (hask : m.ask ta ts dr ctx = some ctx1) :
    ctx1.get "pydanticv1" = some (PyValue.bool true) := by
  simp only [MultiselectMenuModel.ask] at hask
  cases hres : m.resolveEntries ta ts dr ctx with
  | none => simp only [hres] at hask; exact Option.noConfusion hask
  | some ces =>
      simp only [hres] at hask
      by_cases hsk : isSkipList ces = true
      · rw [if_pos hsk] at hask; cases hask; exact hctx
      · rw [if_neg hsk] at hask
        cases hask
        rw [MultiselectMenuModel.record_get]
        by_cases h1 : ("pydanticv1" : String) = "pydanticv1" ∧
            ces.any (fun e => e.pydantic_v1) = true
        · rw [if_pos h1]
        · rw [if_neg h1]
          by_cases h2 : ces.any (fun e => e.code == "pydanticv1") = true
          · rw [if_pos h2]
          · rw [if_neg h2]; exact hctx

/-- C7, amended.  Once the compatibility flag `pydanticv1` is true in the
context, it stays true across any sequence of engine operations — asks of
either variant and after-asks — provided no single-select menu in the
sequence uses the reserved key `pydanticv1` as its own context key (such a
menu overwrites the flag with the chosen entry code; see the
counterexample), and provided no after-ask delegates to a registered
user hook (a hook replaces the engine behaviour with arbitrary user
code). -/
theorem C7_pydanticv1_sticky
    (ops : List EngineOp) (ctx ctx2 : BuilderContext)
    (hsing : ∀ m ta ts dr, EngineOp.singAsk m ta ts dr ∈ ops →
      m.code ≠ "pydanticv1")
    (hafter : ∀ m, EngineOp.singAfter m ∈ ops → m.after_ask_fun = none)
    (hctx : ctx.get "pydanticv1" = some (PyValue.bool true))
    (hrun : runOps ops ctx = some ctx2) :
    ctx2.get "pydanticv1" = some (PyValue.bool true) := by
  induction ops generalizing ctx with
  | nil =>
      simp only [runOps] at hrun
      cases hrun
      exact hctx
  | cons op rest ih =>
      simp only [runOps] at hrun
      cases hop : op.run ctx with
      | none => rw [hop] at hrun; cases hrun
      | some ctx1 =>
          rw [hop] at hrun
          have hstep : ctx1.get "pydanticv1" = some (PyValue.bool true) := by
            cases op with
            | singAsk m ta ts dr =>
                exact sing_ask_preserves_pydanticv1 m ta ts dr ctx ctx1
                  (hsing m ta ts dr (List.mem_cons_self _ _)) hctx hop
            | multiAsk m ta ts dr =>
                exact multi_ask_preserves_pydanticv1 m ta ts dr ctx ctx1
                  hctx hop
            | singAfter m =>
                have hnone := hafter m (List.mem_cons_self _ _)
                simp only [EngineOp.run, SingularMenuModel.after_ask,
                  hnone] at hop
                cases hop
                exact hctx
            | multiAfter m =>
                simp only [EngineOp.run,
                  MultiselectMenuModel.after_ask] at hop
                cases hop
                exact hctx
          exact ih ctx1
            (fun m ta ts dr h => hsing m ta ts dr (List.mem_cons_of_mem _ h))
            (fun m h => hafter m (List.mem_cons_of_mem _ h))
            hstep hrun

/-- C7, witness for the amended theorem at a concrete input. -/
theorem C7_pydanticv1_sticky_witness :
    (⟨[("pydanticv1", PyValue.bool true)]⟩ : BuilderContext).get "pydanticv1"
      = some (PyValue.bool true) ∧
    runOps
        [EngineOp.multiAsk multiMenuP true (fun _ => none) (fun _ => none),
         EngineOp.multiAfter multiMenuP]
        ⟨[("pydanticv1", PyValue.bool true)]⟩
      = some ⟨[("pydanticv1", PyValue.bool true), ("p", PyValue.bool true)]⟩ ∧
    (⟨[("pydanticv1", PyValue.bool true), ("p", PyValue.bool true)]⟩ :
        BuilderContext).get "pydanticv1" = some (PyValue.bool true) := by
  refine ⟨rfl, rfl, ?_⟩
  exact C7_pydanticv1_sticky
    [EngineOp.multiAsk multiMenuP true (fun _ => none) (fun _ => none),
     EngineOp.multiAfter multiMenuP]
    ⟨[("pydanticv1", PyValue.bool true)]⟩
    ⟨[("pydanticv1", PyValue.bool true), ("p", PyValue.bool true)]⟩
    (by
      intro m ta ts dr h
      simp only [List.mem_cons, List.mem_singleton] at h
      rcases h with h | h | h <;> cases h)
    (by
      intro m h
      simp only [List.mem_cons, List.mem_singleton] at h
      rcases h with h | h | h <;> cases h)
    rfl rfl

/-- C9, confirmed.  An entry whose `is_hidden` predicate evaluates true on
the current context is excluded from the interactively presented
`available_entries` list; yet when its code is pre-seeded in the context
under the menu key (with codes unique for that value, per the data-model
invariant, and the menu key distinct from the reserved flag key
`pydanticv1`), `ask` still resolves it as the chosen entry and the
resulting context carries its code. -/
theorem C9_hidden_entry
    (m : SingularMenuModel) (ctx : BuilderContext) (e : MenuEntry)
    (h : BuilderContext → Bool) (ta : Bool)
    (ts : List MenuEntry → Option Nat)
    (dr : List MenuEntry → Option MenuEntry)
    (he : e ∈ m.entries) (hh : e.is_hidden = some h) (hht : h ctx = true)
    (hseed : ctx.get m.code = some (PyValue.str e.code))
    (hne : e.code ≠ "")
    (huniq : ∀ e2 ∈ m.entries, e2.code = e.code → e2 = e)
    (hkey : m.code ≠ "pydanticv1") :
    e ∉ m.available_entries ctx ∧
    ∃ ctx2, m.ask ta ts dr ctx = some ctx2 ∧
      ctx2.get m.code = some (PyValue.str e.code) := by
  constructor
  · intro hmem
    have hp := (List.mem_filter.mp hmem).2
    simp [hh, hht] at hp
  · have htr : (PyValue.str e.code).truthy = true := by
      simp [PyValue.truthy, hne]
    have hlast : lastMatching m.entries (PyValue.str e.code) = some e :=
      lastMatching_of_unique m.entries e e.code he rfl huniq
    have hresolve : m.resolveEntry ta ts dr ctx = some e := by
      simp only [SingularMenuModel.resolveEntry, SingularMenuModel.preEntry,
        SingularMenuModel.seededEntry, hseed, htr, if_true, hlast]
    have hskip : isSkipEq e = false := by
      simp [isSkipEq, hh]
    refine ⟨if e.pydantic_v1
            then (ctx.set m.code (PyValue.str e.code)).set "pydanticv1"
                   (PyValue.bool true)
            else ctx.set m.code (PyValue.str e.code), ?_, ?_⟩
    · simp only [SingularMenuModel.ask, hresolve, hskip, Bool.false_eq_true,
        if_false]
    · by_cases hp : e.pydantic_v1 = true
      · simp [hp, BuilderContext.get_set, hkey]
      · rw [Bool.not_eq_true] at hp
        simp [hp, BuilderContext.get_set]

/-- C9, witness at a concrete input: the always-hidden entry of `hidMenu`
is absent from the presented list but a seeded `opt2 = "h"` still selects
it. -/
theorem C9_hidden_entry_witness :
    entryHidden ∉ hidMenu.available_entries ⟨[("opt2", PyValue.str "h")]⟩ ∧
    ∃ ctx2, hidMenu.ask true (fun _ => none) (fun _ => none)
        ⟨[("opt2", PyValue.str "h")]⟩ = some ctx2 ∧
      ctx2.get "opt2" = some (PyValue.str "h") :=
  C9_hidden_entry hidMenu ⟨[("opt2", PyValue.str "h")]⟩ entryHidden
    (fun _ => true) true (fun _ => none) (fun _ => none)
    (by simp [hidMenu])
    rfl rfl rfl (by decide)
    (by
      intro e2 h2 hc
      simp only [hidMenu, List.mem_cons, List.mem_singleton,
        List.not_mem_nil, or_false] at h2
      rcases h2 with rfl | rfl
      · exact absurd hc (by decide)
      · rfl)
    (by decide)

/-- C10, confirmed.  When the multi-select `ask` completes via a non-null,
non-skip resolution, the resulting context maps the code of every chosen
entry to `True`; every other key is unchanged (in particular, keys of
entries not chosen that were absent stay absent and are never set to an
explicit `False`), with the sole exception of `pydanticv1`, which is set
to `True` when some chosen entry carries the legacy flag. -/
theorem C10_multi_ask_frame
    (m : MultiselectMenuModel) (ta : Bool)
    (ts : List MenuEntry → Option (List Nat))
    (dr : List MenuEntry → Option (List MenuEntry))
    (ctx : BuilderContext) (ces : List MenuEntry)
    (hres : m.resolveEntries ta ts dr ctx = some ces)
    (hns : isSkipList ces = false) :
    m.ask ta ts dr ctx = some (MultiselectMenuModel.record ces ctx) ∧
    ∀ k : String,
      (ces.any (fun e => e.code == k) = true →
        (MultiselectMenuModel.record ces ctx).get k
          = some (PyValue.bool true)) ∧
      (k = "pydanticv1" → ces.any (fun e => e.pydantic_v1) = true →
        (MultiselectMenuModel.record ces ctx).get k
          = some (PyValue.bool true)) ∧
      (ces.any (fun e => e.code == k) = false →
        (k = "pydanticv1" → ces.any (fun e => e.pydantic_v1) = false) →
        (MultiselectMenuModel.record ces ctx).get k = ctx.get k) := by
  constructor
  · simp only [MultiselectMenuModel.ask, hres, hns, Bool.false_eq_true,
      if_false]
  · intro k
    refine ⟨?_, ?_, ?_⟩
    · intro hcode
      rw [MultiselectMenuModel.record_get]
      by_cases h1 : k = "pydanticv1" ∧ ces.any (fun e => e.pydantic_v1) = true
      · rw [if_pos h1]
      · rw [if_neg h1, if_pos hcode]
    · intro hk hpy
      rw [MultiselectMenuModel.record_get, if_pos ⟨hk, hpy⟩]
    · intro hcode himp
      rw [MultiselectMenuModel.record_get]
      have h1 : ¬(k = "pydanticv1" ∧
          ces.any (fun e => e.pydantic_v1) = true) := by
        rintro ⟨hk, hpy⟩
        rw [himp hk] at hpy
        exact Bool.false_ne_true hpy
      have h2 : ¬(ces.any (fun e => e.code == k) = true) := by
        rw [hcode]
        exact Bool.false_ne_true
      rw [if_neg h1, if_neg h2]

/-- C10, witness at a concrete input: `multiMenuAB` chooses only `entryA`,
so `a := True` is written, `b` stays absent, and no other key changes. -/
theorem C10_multi_ask_frame_witness :
    multiMenuAB.ask true (fun _ => none) (fun _ => none) ⟨[]⟩
      = some (MultiselectMenuModel.record [entryA] ⟨[]⟩) ∧
    (MultiselectMenuModel.record [entryA] ⟨[]⟩).get "a"
      = some (PyValue.bool true) ∧
    (MultiselectMenuModel.record [entryA] ⟨[]⟩).get "b"
      = (⟨[]⟩ : BuilderContext).get "b" := by
  have h := C10_multi_ask_frame multiMenuAB true (fun _ => none)
    (fun _ => none) ⟨[]⟩ [entryA] rfl rfl
  exact ⟨h.1, (h.2 "a").1 (by decide),
    (h.2 "b").2.2 (by decide) (by intro hk; exact absurd hk (by decide))⟩
